import Mathlib

/-!
Verification of the care-session service against its specification.

This file contains a shallow embedding, in Lean 4, of the parts of the
service relevant to the checked claims:

* the care-session lifecycle operations of
  `app/care_sessions/service.py` together with the validators of
  `app/care_sessions/validators.py` and the auto-completion policy of
  `app/care_sessions/auto_complete.py`;
* the satisfaction metrics of `app/feedback/satisfaction.py` and the
  router helper `calculate_satisfaction_index` of
  `app/feedback/router.py`;
* the cursor-paginated period report of `app/reports/service.py` /
  `app/reports/repository.py`;
* the token verification of `app/auth/middleware.py`;
* the organization-event cache-sync consumer of
  `app/messaging/consumer.py`.

Modelling conventions: timestamps are integers (seconds); UUID values
are modelled as natural numbers or strings, ordered as the database
orders them; the database session/state is passed explicitly; Python
exceptions become `Except` errors; `datetime.utcnow()` becomes an
explicit `now` argument at each point where the source calls it.
-/

/-! ### Care sessions: data model (`app/care_sessions/models.py`) -/

/-- One row of the `care_sessions` table.  Columns mirror
`CareSession` in `app/care_sessions/models.py`: `id` is the primary
key, `session_id` the public string identifier (default: a freshly
generated UUID string), timestamps are integers, `check_out_time`,
`caregiver_notes` and `deleted_at` are nullable. -/
structure CareSession where
  id : Nat
  session_id : String
  patient_id : Nat
  caregiver_id : Nat
  check_in_time : Int
  check_out_time : Option Int
  status : String
  caregiver_notes : Option String
  created_at : Int
  updated_at : Int
  deleted_at : Option Int
deriving DecidableEq, Repr

/-- One row of the read-only `nfc_tags` table (`app/db/models.py`). -/
structure NFCTag where
  tag_id : String
  patient_id : Nat
  status : String
deriving DecidableEq, Repr

/-- The domain errors raised by the care-session service
(`app/care_sessions/exceptions.py`). -/
inductive CareSessionError where
  | notFound
  | nfcTagNotFound
  | duplicateActiveSession
  | invalidStatus
  | invalidSessionTimes
  | sessionNotInProgress
  | unauthorizedCaregiver
deriving DecidableEq, Repr

/-! ### Auto-completion policy (`app/care_sessions/auto_complete.py`) -/

/-- Source `AUTO_COMPLETE_HOURS = 2`. -/
def AUTO_COMPLETE_HOURS : Int := 2

/-- The system note appended on auto-completion:
`f"[AUTO-COMPLETED] Session exceeded {AUTO_COMPLETE_HOURS} hour timeout"`. -/
def autoCompleteNoteText : String :=
  "[AUTO-COMPLETED] Session exceeded 2 hour timeout"

/-- Source `auto_complete_if_needed(session)`.  Returns the (possibly
mutated) session together with the bool the Python function returns.
The source reads `datetime.utcnow()`; here it is the explicit `now`
(used both for the cutoff and for the new `check_out_time`). -/
def auto_complete_if_needed (now : Int) (session : CareSession) :
    CareSession × Bool :=
  if session.status ≠ "in_progress" then (session, false)
  else
    let cutoff := now - AUTO_COMPLETE_HOURS * 3600
    if session.check_in_time ≥ cutoff then (session, false)
    else
      ({ session with
          status := "completed"
          check_out_time := some now
          caregiver_notes := some
            (((session.caregiver_notes.getD "") ++ "\n" ++
              autoCompleteNoteText).trim) },
        true)

/-! ### Validators (`app/care_sessions/validators.py`) -/

/-- Source `SessionValidator.VALID_STATUSES`. -/
def VALID_STATUSES : List String := ["in_progress", "completed"]

/-- Source `validate_status`: errors unless the status is listed. -/
def validate_status (status : String) : Except CareSessionError Unit :=
  if status ∈ VALID_STATUSES then Except.ok ()
  else Except.error CareSessionError.invalidStatus

/-- Source `validate_session_times`: errors when a `check_out_time` is set and
is not strictly after `check_in_time` (the `check_in_time` column is
non-nullable, so the Python truthiness guard on it always passes). -/
def validate_session_times (session : CareSession) :
    Except CareSessionError Unit :=
  match session.check_out_time with
  | some out =>
      if out ≤ session.check_in_time then
        Except.error CareSessionError.invalidSessionTimes
      else Except.ok ()
  | none => Except.ok ()

/-- Source `validate_session_in_progress`. -/
def validate_session_in_progress (session : CareSession) :
    Except CareSessionError Unit :=
  if session.status ≠ "in_progress" then
    Except.error CareSessionError.sessionNotInProgress
  else Except.ok ()

/-- Source `validate_caregiver_ownership`. -/
def validate_caregiver_ownership (session : CareSession)
    (caregiver_id : Nat) : Except CareSessionError Unit :=
  if session.caregiver_id ≠ caregiver_id then
    Except.error CareSessionError.unauthorizedCaregiver
  else Except.ok ()

/-- Source `validate_and_get_nfc_tag`: finds an NFC tag with the given
`tag_id` and status `"active"`, else `NFCTagNotFoundException`. -/
def validate_and_get_nfc_tag (tags : List NFCTag) (tag_id : String) :
    Except CareSessionError NFCTag :=
  match tags.find? (fun t => t.tag_id == tag_id && t.status == "active") with
  | some t => Except.ok t
  | none => Except.error CareSessionError.nfcTagNotFound

/-! ### Service operations (`app/care_sessions/service.py`) -/

/-- Source `CareSessionRepository.get_by_id`: plain primary-key lookup (the
query has no `deleted_at` filter). -/
def get_by_id (db : List CareSession) (session_id : Nat) :
    Option CareSession :=
  db.find? (fun s => s.id == session_id)

/-- Source `CareSessionRepository.get_active_by_patient`: the session for the
patient with status `"in_progress"`, if any. -/
def get_active_by_patient (db : List CareSession) (patient_id : Nat) :
    Option CareSession :=
  db.find? (fun s => s.patient_id == patient_id && s.status == "in_progress")

/-- Source `CareSessionService.get_session`: `_get_session_or_404` — fetch the
stored row, 404 when absent.  The service performs no other step: in
particular it never invokes `auto_complete_if_needed` (that function
has no caller anywhere in the code base), so the returned session is
exactly the stored one. -/
def get_session (db : List CareSession) (session_id : Nat) :
    Except CareSessionError CareSession :=
  match get_by_id db session_id with
  | some s => Except.ok s
  | none => Except.error CareSessionError.notFound

/-- Source `CareSessionService.create_session`.  `new_id` stands for the
database-generated primary key and `generated_session_id` for the
`str(uuid4())` column default used when the caller supplies no public
`session_id`; `now` stands for `datetime.utcnow()` used by the
`check_in_time` / `created_at` / `updated_at` column defaults. -/
def create_session (db : List CareSession) (tags : List NFCTag)
    (tag_id : String) (caregiver_id : Nat)
    (provided_session_id : Option String)
    (new_id : Nat) (generated_session_id : String) (now : Int) :
    Except CareSessionError CareSession :=
  match validate_and_get_nfc_tag tags tag_id with
  | Except.error e => Except.error e
  | Except.ok nfc_tag =>
    match get_active_by_patient db nfc_tag.patient_id with
    | some _ => Except.error CareSessionError.duplicateActiveSession
    | none =>
      Except.ok
        { id := new_id
          session_id := provided_session_id.getD generated_session_id
          patient_id := nfc_tag.patient_id
          caregiver_id := caregiver_id
          check_in_time := now
          check_out_time := none
          status := "in_progress"
          caregiver_notes := none
          created_at := now
          updated_at := now
          deleted_at := none }

/-- Source `CareSessionService.complete_session`, applied to the session the
`_get_session_or_404` lookup produced.  Validates in-progress and
ownership, then sets `check_out_time := now`, the notes and the status
(`repository.update` also refreshes `updated_at`).  No time validation
is performed on this path. -/
def complete_session (now : Int) (session : CareSession)
    (caregiver_notes : String) (caregiver_id : Nat) :
    Except CareSessionError CareSession :=
  match validate_session_in_progress session with
  | Except.error e => Except.error e
  | Except.ok () =>
    match validate_caregiver_ownership session caregiver_id with
    | Except.error e => Except.error e
    | Except.ok () =>
      Except.ok
        { session with
            check_out_time := some now
            caregiver_notes := some caregiver_notes
            status := "completed"
            updated_at := now }

/-- Source `CareSessionService.update_session`, applied to the fetched
session: apply the provided fields (validating a provided status
before assigning it), then `validate_session_times`. -/
def update_session (now : Int) (session : CareSession)
    (check_in_time : Option Int) (check_out_time : Option Int)
    (caregiver_notes : Option String) (status : Option String) :
    Except CareSessionError CareSession :=
  let s1 := match check_in_time with
    | some t => { session with check_in_time := t }
    | none => session
  let s2 := match check_out_time with
    | some t => { s1 with check_out_time := some t }
    | none => s1
  let s3 := match caregiver_notes with
    | some n => { s2 with caregiver_notes := some n }
    | none => s2
  match status with
  | some st =>
    match validate_status st with
    | Except.error e => Except.error e
    | Except.ok () =>
      let s4 := { s3 with status := st }
      match validate_session_times s4 with
      | Except.error e => Except.error e
      | Except.ok () => Except.ok { s4 with updated_at := now }
  | none =>
    match validate_session_times s3 with
    | Except.error e => Except.error e
    | Except.ok () => Except.ok { s3 with updated_at := now }

/-- The specification's session-times invariant: when both timestamps
are present, `check_out_time > check_in_time`. -/
def sessionTimesOk (session : CareSession) : Bool :=
  match session.check_out_time with
  | some out => session.check_in_time < out
  | none => true

/-! ### Satisfaction metrics (`app/feedback/satisfaction.py`,
`app/feedback/router.py`) -/

/-- Python's `round(x, 2)` over exact rational arithmetic: round
`100 x` to the nearest integer and divide back.  (Python rounds ties
to even, Mathlib's `round` rounds ties up; every quantity appearing in
the theorems below is at distance more than `1/200` from the relevant
boundary, so the tie-breaking rule is immaterial.) -/
def pyRound2 (x : ℚ) : ℚ := ((round (x * 100) : ℤ) : ℚ) / 100

/-- A `feedback` row, reduced to the single column `compute_metrics`
reads (`f.rating`; ratings are validated to `1..3` at the API
boundary, `CreateFeedbackRequest.rating`). -/
structure Feedback where
  rating : ℕ
deriving DecidableEq, Repr

/-- The dictionary returned by `compute_metrics`, with the
`distribution` / `satisfaction_levels` dictionaries flattened into one
field per key (`"5_star"` … `"1_star"`, `"VERY_SATISFIED"` …
`"VERY_DISSATISFIED"`). -/
structure SatisfactionMetrics where
  average_rating : ℚ
  satisfaction_index : ℚ
  total_feedbacks : ℕ
  dist_5_star : ℚ
  dist_4_star : ℚ
  dist_3_star : ℚ
  dist_2_star : ℚ
  dist_1_star : ℚ
  very_satisfied : ℕ
  satisfied : ℕ
  neutral : ℕ
  dissatisfied : ℕ
  very_dissatisfied : ℕ
deriving DecidableEq, Repr

/-- The `empty_metrics` dictionary of `compute_metrics`. -/
def emptyMetrics : SatisfactionMetrics :=
  { average_rating := 0
    satisfaction_index := 0
    total_feedbacks := 0
    dist_5_star := 0, dist_4_star := 0, dist_3_star := 0
    dist_2_star := 0, dist_1_star := 0
    very_satisfied := 0, satisfied := 0, neutral := 0
    dissatisfied := 0, very_dissatisfied := 0 }

/-- Source `compute_metrics(feedbacks)` from `app/feedback/satisfaction.py`:
average of the ratings, `satisfaction_index = round((avg / 5) * 100,
2)`, percentage distribution per star value `1..5`, and counts per
satisfaction level. -/
def compute_metrics (feedbacks : List Feedback) : SatisfactionMetrics :=
  if feedbacks.isEmpty then emptyMetrics
  else
    let total : ℕ := feedbacks.length
    let ratings : List ℕ := feedbacks.map (fun f => f.rating)
    let avg_rating : ℚ := ((ratings.sum : ℚ)) / (total : ℚ)
    let cnt : ℕ → ℕ := fun i => ratings.count i
    let pct : ℕ → ℚ := fun i => pyRound2 (((cnt i : ℚ) / (total : ℚ)) * 100)
    { average_rating := pyRound2 avg_rating
      satisfaction_index := pyRound2 ((avg_rating / 5) * 100)
      total_feedbacks := total
      dist_5_star := pct 5
      dist_4_star := pct 4
      dist_3_star := pct 3
      dist_2_star := pct 2
      dist_1_star := pct 1
      very_satisfied := cnt 5
      satisfied := cnt 4
      neutral := cnt 3
      dissatisfied := cnt 2
      very_dissatisfied := cnt 1 }

/-- Source `calculate_satisfaction_index(average_rating)` from
`app/feedback/router.py`: `round((average_rating / 3.0) * 100, 2)`. -/
def calculate_satisfaction_index (average_rating : ℚ) : ℚ :=
  pyRound2 ((average_rating / 3) * 100)

/-- The raw (unrounded) average rating of a feedback collection, as
both `compute_metrics` and the SQL `AVG(rating)` produce it. -/
def rawAverage (feedbacks : List Feedback) : ℚ :=
  let ratings : List ℕ := feedbacks.map (fun f => f.rating)
  (ratings.sum : ℚ) / (feedbacks.length : ℚ)

/-! ### Period session report with cursor pagination
(`app/reports/repository.py` `get_sessions_in_period`,
`app/reports/service.py` `get_period_session_report`) -/

/-- A `care_sessions` row as the period report query reads it: the
two ordering-key columns (`check_in_time`, `id`) and the soft-delete
marker.  The remaining columns do not influence filtering, ordering or
cursors, so they are omitted from this embedding.  `id` is a UUID in
the source; it is modelled as a natural number with the same
comparison semantics the database uses. -/
structure ReportRow where
  check_in_time : Int
  id : Nat
  deleted_at : Option Int
deriving DecidableEq, Repr

/-- The period `WHERE` clause: `check_in_time >= start_date AND
check_in_time <= end_date AND deleted_at IS NULL`. -/
def periodMatch (start_date end_date : Int) (r : ReportRow) : Bool :=
  decide (start_date ≤ r.check_in_time) &&
    decide (r.check_in_time ≤ end_date) && r.deleted_at == none

/-- The cursor `WHERE` clause: `check_in_time < cursor_time OR
(check_in_time = cursor_time AND id < cursor_id)` — strictly before
the cursor position in `(check_in_time DESC, id DESC)` order. -/
def beforeCursor (r : ReportRow) (c : Int × Nat) : Bool :=
  decide (r.check_in_time < c.1) ||
    (decide (r.check_in_time = c.1) && decide (r.id < c.2))

/-- Source `ReportsRepository.get_sessions_in_period`: period filter, cursor
filter when a cursor is supplied, `ORDER BY (check_in_time DESC, id
DESC)`, `LIMIT`.  The input list `all_rows` stands for the table
contents in exactly that order (the sortedness hypotheses of the
theorems below state this); the service always passes `offset=None`,
so no offset appears. -/
def get_sessions_in_period (all_rows : List ReportRow)
    (start_date end_date : Int) (limit : Option Nat)
    (cursor : Option (Int × Nat)) : List ReportRow :=
  let base := all_rows.filter (periodMatch start_date end_date)
  let filtered := match cursor with
    | none => base
    | some c => base.filter (fun r => beforeCursor r c)
  match limit with
  | some l => filtered.take l
  | none => filtered

/-- Source `ReportsService.get_period_session_report`: fetch `limit + 1`
rows; when more than `limit` came back, the row at index `limit - 1`
(the last row of the returned page) becomes the next cursor and the
page is truncated to `limit`; otherwise the cursor is `None`. -/
def get_period_session_report (all_rows : List ReportRow)
    (start_date end_date : Int) (limit : Nat)
    (cursor : Option (Int × Nat)) :
    List ReportRow × Option (Int × Nat) :=
  let sessions :=
    get_sessions_in_period all_rows start_date end_date (some (limit + 1))
      cursor
  if limit < sessions.length then
    let last := sessions.getD (limit - 1) ⟨0, 0, none⟩
    (sessions.take limit, some (last.check_in_time, last.id))
  else (sessions, none)

/-- Repeatedly call `get_period_session_report`, feeding each returned
`next_cursor` into the next call, collecting the pages; `fuel` bounds
the number of calls (any `fuel ≥` number of stored rows is enough). -/
def paginate_period_report (all_rows : List ReportRow)
    (start_date end_date : Int) (limit : Nat) :
    Nat → Option (Int × Nat) → List (List ReportRow)
  | 0, _ => []
  | fuel + 1, cursor =>
    match get_period_session_report all_rows start_date end_date limit
        cursor with
    | (page, none) => [page]
    | (page, some c) =>
        page :: paginate_period_report all_rows start_date end_date limit
          fuel (some c)

/-- The rows matching a report call: the period filter plus, when a
cursor is supplied, the cursor filter. -/
def cursorFiltered (matching : List ReportRow)
    (cursor : Option (Int × Nat)) : List ReportRow :=
  match cursor with
  | none => matching
  | some c => matching.filter (fun r => beforeCursor r c)

/-- Strict lexicographic order on cursor keys `(check_in_time, id)`. -/
def keyLt (p q : Int × Nat) : Prop :=
  p.1 < q.1 ∨ (p.1 = q.1 ∧ p.2 < q.2)

/-- The cursor key of a row. -/
def rowKey (r : ReportRow) : Int × Nat := (r.check_in_time, r.id)

/-- Source `a` strictly precedes `b` in `(check_in_time DESC, id DESC)`
order. -/
def rowAfter (a b : ReportRow) : Prop := keyLt (rowKey b) (rowKey a)

theorem beforeCursor_iff (r : ReportRow) (c : Int × Nat) :
    beforeCursor r c = true ↔ keyLt (rowKey r) c := by
  simp [beforeCursor, keyLt, rowKey]

theorem keyLt_trans {a b c : Int × Nat} (h1 : keyLt a b) (h2 : keyLt b c) :
    keyLt a c := by
  unfold keyLt at h1 h2 ⊢
  omega

theorem keyLt_irrefl (a : Int × Nat) : ¬ keyLt a a := by
  unfold keyLt
  omega

theorem keyLt_asymm {a b : Int × Nat} (h : keyLt a b) : ¬ keyLt b a :=
  fun h2 => keyLt_irrefl a (keyLt_trans h h2)

theorem getD_eq_get {α : Type} (l : List α) (n : Nat) (d : α)
    (h : n < l.length) : l.getD n d = l.get ⟨n, h⟩ := by
  simp [List.getD_eq_getElem?_getD, List.getElem?_eq_getElem h]

/-- On a strictly `(check_in_time DESC, id DESC)`-sorted list, the
cursor filter at the key of the element at index `m` keeps exactly the
elements after index `m`. -/
theorem filter_before_get_eq_drop (l : List ReportRow)
    (hl : l.Pairwise rowAfter) :
    ∀ (m : Nat) (hm : m < l.length),
      l.filter (fun r => beforeCursor r (rowKey (l.get ⟨m, hm⟩))) =
        l.drop (m + 1) := by
  induction l with
  | nil => intro m hm; simp at hm
  | cons a tl ih =>
    intro m hm
    rcases List.pairwise_cons.mp hl with ⟨hhead, htail⟩
    cases m with
    | zero =>
      have ha : beforeCursor a (rowKey ((a :: tl).get ⟨0, hm⟩)) = false := by
        have := keyLt_irrefl (rowKey a)
        show beforeCursor a (rowKey a) = false
        simp only [← beforeCursor_iff] at this
        simpa using this
      have htl : ∀ x ∈ tl,
          (fun r => beforeCursor r (rowKey ((a :: tl).get ⟨0, hm⟩))) x = true :=
        fun x hx => (beforeCursor_iff x (rowKey a)).mpr (hhead x hx)
      simp only [List.filter_cons, ha, if_false, Bool.false_eq_true]
      rw [List.filter_eq_self.mpr htl]
      rfl
    | succ m =>
      have hm' : m < tl.length := by simpa using hm
      have hget : (a :: tl).get ⟨m + 1, hm⟩ = tl.get ⟨m, hm'⟩ := rfl
      have hmem : tl.get ⟨m, hm'⟩ ∈ tl := List.get_mem tl m hm'
      have hax : rowAfter a (tl.get ⟨m, hm'⟩) := hhead _ hmem
      have ha : beforeCursor a (rowKey (tl.get ⟨m, hm'⟩)) = false := by
        have hna := keyLt_asymm hax
        simp only [← beforeCursor_iff] at hna
        simpa using hna
      simp only [hget, List.filter_cons, ha, if_false, Bool.false_eq_true]
      rw [ih htail m hm']
      rfl

theorem cursorFiltered_pairwise {M : List ReportRow}
    {R : ReportRow → ReportRow → Prop} (hM : M.Pairwise R)
    (c : Option (Int × Nat)) : (cursorFiltered M c).Pairwise R := by
  cases c with
  | none => exact hM
  | some cv => exact hM.filter _

/-- Moving the cursor to the key of the element at index `m` of the
current result set drops exactly the first `m + 1` rows of it. -/
theorem cursorFiltered_advance (M : List ReportRow)
    (hM : M.Pairwise rowAfter) (c : Option (Int × Nat))
    (m : Nat) (hm : m < (cursorFiltered M c).length) :
    cursorFiltered M (some (rowKey ((cursorFiltered M c).get ⟨m, hm⟩))) =
      (cursorFiltered M c).drop (m + 1) := by
  have hFsorted : (cursorFiltered M c).Pairwise rowAfter :=
    cursorFiltered_pairwise hM c
  have hdrop := filter_before_get_eq_drop (cursorFiltered M c) hFsorted m hm
  cases c with
  | none => exact hdrop
  | some cv =>
    have hxmem : (cursorFiltered M (some cv)).get ⟨m, hm⟩ ∈
        M.filter (fun r => beforeCursor r cv) :=
      List.get_mem (cursorFiltered M (some cv)) m hm
    have hxcv : keyLt
        (rowKey ((cursorFiltered M (some cv)).get ⟨m, hm⟩)) cv := by
      have hpx := (List.mem_filter.mp hxmem).2
      exact (beforeCursor_iff _ cv).mp (by simpa using hpx)
    calc cursorFiltered M
          (some (rowKey ((cursorFiltered M (some cv)).get ⟨m, hm⟩)))
        = M.filter (fun r =>
            beforeCursor r
              (rowKey ((cursorFiltered M (some cv)).get ⟨m, hm⟩))) := rfl
      _ = (M.filter (fun r => beforeCursor r cv)).filter (fun r =>
            beforeCursor r
              (rowKey ((cursorFiltered M (some cv)).get ⟨m, hm⟩))) := by
          rw [List.filter_filter]
          refine List.filter_congr (fun r _ => ?_)
          cases hr : beforeCursor r
              (rowKey ((cursorFiltered M (some cv)).get ⟨m, hm⟩)) with
          | false => simp [hr]
          | true =>
            have hrcv : beforeCursor r cv = true :=
              (beforeCursor_iff r cv).mpr
                (keyLt_trans ((beforeCursor_iff _ _).mp hr) hxcv)
            simp [hr, hrcv]
      _ = (cursorFiltered M (some cv)).drop (m + 1) := hdrop

/-- The rows that match the period query (the `WHERE` clause without
cursor), in table order. -/
def periodRows (all_rows : List ReportRow) (start_date end_date : Int) :
    List ReportRow :=
  all_rows.filter (periodMatch start_date end_date)

theorem get_sessions_in_period_take (all_rows : List ReportRow)
    (start_date end_date : Int) (k : Nat) (c : Option (Int × Nat)) :
    get_sessions_in_period all_rows start_date end_date (some k) c =
      (cursorFiltered (periodRows all_rows start_date end_date) c).take k := by
  cases c <;> rfl

/-- When strictly more than `limit` rows match, one report call
returns the first `limit` of them and a cursor at the key of the last
returned row. -/
theorem get_period_session_report_more (all_rows : List ReportRow)
    (start_date end_date : Int) (limit : Nat) (c : Option (Int × Nat))
    (hlim : 1 ≤ limit)
    (hlen : limit <
      (cursorFiltered (periodRows all_rows start_date end_date) c).length) :
    get_period_session_report all_rows start_date end_date limit c =
      ((cursorFiltered (periodRows all_rows start_date end_date) c).take limit,
        some (rowKey
          ((cursorFiltered (periodRows all_rows start_date end_date) c).get
            ⟨limit - 1, by omega⟩))) := by
  unfold get_period_session_report
  rw [get_sessions_in_period_take]
  set F := cursorFiltered (periodRows all_rows start_date end_date) c with hF
  have hslen : (F.take (limit + 1)).length = limit + 1 := by
    rw [List.length_take]; omega
  have hcond : limit < (F.take (limit + 1)).length := by omega
  rw [if_pos hcond]
  have hb1 : limit - 1 < (F.take (limit + 1)).length := by omega
  have hb2 : limit - 1 < F.length := by omega
  have hgetD : (F.take (limit + 1)).getD (limit - 1) ⟨0, 0, none⟩ =
      F.get ⟨limit - 1, hb2⟩ := by
    rw [getD_eq_get _ _ _ hb1]
    simp [List.get_eq_getElem, List.getElem_take]
  have htake : (F.take (limit + 1)).take limit = F.take limit := by
    rw [List.take_take]
    congr 1
    omega
  rw [hgetD, htake]
  rfl

/-- When at most `limit` rows match, one report call returns them all
and no cursor. -/
theorem get_period_session_report_last (all_rows : List ReportRow)
    (start_date end_date : Int) (limit : Nat) (c : Option (Int × Nat))
    (hlen :
      (cursorFiltered (periodRows all_rows start_date end_date) c).length ≤
        limit) :
    get_period_session_report all_rows start_date end_date limit c =
      (cursorFiltered (periodRows all_rows start_date end_date) c, none) := by
  unfold get_period_session_report
  rw [get_sessions_in_period_take]
  set F := cursorFiltered (periodRows all_rows start_date end_date) c with hF
  have htake : F.take (limit + 1) = F := List.take_of_length_le (by omega)
  rw [htake, if_neg (by omega)]

/-- Feeding every returned cursor back in, the pages returned by
`get_period_session_report` concatenate to exactly the current result
set. -/
theorem paginate_period_report_join (all_rows : List ReportRow)
    (start_date end_date : Int) (limit : Nat)
    (hsorted : (periodRows all_rows start_date end_date).Pairwise rowAfter)
    (hlim : 1 ≤ limit) :
    ∀ (fuel : Nat) (c : Option (Int × Nat)),
      (cursorFiltered (periodRows all_rows start_date end_date) c).length ≤
        fuel →
      (paginate_period_report all_rows start_date end_date limit fuel
          c).flatten =
        cursorFiltered (periodRows all_rows start_date end_date) c := by
  intro fuel
  induction fuel with
  | zero =>
    intro c hc
    have hnil :
        cursorFiltered (periodRows all_rows start_date end_date) c = [] :=
      List.eq_nil_of_length_eq_zero (by omega)
    simp [paginate_period_report, hnil]
  | succ fuel ih =>
    intro c hc
    by_cases hlen : limit <
        (cursorFiltered (periodRows all_rows start_date end_date) c).length
    · have hstep := get_period_session_report_more all_rows start_date
        end_date limit c hlim hlen
      have hb2 : limit - 1 <
          (cursorFiltered (periodRows all_rows start_date end_date)
            c).length := by omega
      have hadv := cursorFiltered_advance
        (periodRows all_rows start_date end_date) hsorted c (limit - 1) hb2
      have hl1 : limit - 1 + 1 = limit := by omega
      rw [hl1] at hadv
      have hfuel2 :
          (cursorFiltered (periodRows all_rows start_date end_date)
            (some (rowKey
              ((cursorFiltered (periodRows all_rows start_date end_date)
                c).get ⟨limit - 1, hb2⟩)))).length ≤ fuel := by
        rw [hadv, List.length_drop]
        omega
      have hrec := ih _ hfuel2
      rw [hadv] at hrec
      have hunfold : paginate_period_report all_rows start_date end_date
          limit (fuel + 1) c =
        (cursorFiltered (periodRows all_rows start_date end_date)
            c).take limit ::
          paginate_period_report all_rows start_date end_date limit fuel
            (some (rowKey
              ((cursorFiltered (periodRows all_rows start_date end_date)
                c).get ⟨limit - 1, hb2⟩))) := by
        rw [paginate_period_report, hstep]
      rw [hunfold, List.flatten_cons, hrec, List.take_append_drop]
    · have hstep := get_period_session_report_last all_rows start_date
        end_date limit c (by omega)
      have hunfold : paginate_period_report all_rows start_date end_date
          limit (fuel + 1) c =
        [cursorFiltered (periodRows all_rows start_date end_date) c] := by
        rw [paginate_period_report, hstep]
      rw [hunfold]
      simp

theorem periodRows_nodup (all_rows : List ReportRow)
    (start_date end_date : Int)
    (hsorted : all_rows.Pairwise rowAfter) :
    (periodRows all_rows start_date end_date).Nodup := by
  have hp := hsorted.filter (periodMatch start_date end_date)
  refine List.Pairwise.imp ?_ hp
  intro a b hab heq
  exact keyLt_irrefl (rowKey a) (by simpa [heq] using hab)

/-- C2.  For the cursor-paginated period session report: for every
`limit ≥ 1` and every fixed stored table (in `(check_in_time DESC, id
DESC)` order, timestamp collisions allowed — only strictness of the
two-column order, i.e. distinctness of `(check_in_time, id)` pairs, is
assumed), starting with no cursor and repeatedly feeding each returned
`next_cursor` into the next call yields pages that are pairwise
disjoint and jointly contain every matching row exactly once, and a
call's `next_cursor` is `None` exactly when no rows remain beyond the
page it returned.  Each call internally fetches `limit + 1` rows
ordered by the two-column key, filtered strictly before the supplied
cursor (`get_sessions_in_period`). -/
theorem period_report_cursor_pagination_roundtrip
    (all_rows : List ReportRow) (start_date end_date : Int)
    (limit fuel : Nat)
    (hsorted : all_rows.Pairwise rowAfter)
    (hlim : 1 ≤ limit) (hfuel : all_rows.length ≤ fuel) :
    (paginate_period_report all_rows start_date end_date limit fuel
        none).flatten = periodRows all_rows start_date end_date ∧
    List.Pairwise List.Disjoint
      (paginate_period_report all_rows start_date end_date limit fuel
        none) ∧
    (∀ r ∈ periodRows all_rows start_date end_date,
      (paginate_period_report all_rows start_date end_date limit fuel
          none).flatten.count r = 1) ∧
    (∀ c : Option (Int × Nat),
      (get_period_session_report all_rows start_date end_date limit c).2 =
          none ↔
        (cursorFiltered (periodRows all_rows start_date end_date) c).drop
            limit = []) := by
  have hMsorted :
      (periodRows all_rows start_date end_date).Pairwise rowAfter :=
    hsorted.filter _
  have hMfuel :
      (cursorFiltered (periodRows all_rows start_date end_date)
        none).length ≤ fuel := by
    have hle := List.length_filter_le (periodMatch start_date end_date)
      all_rows
    exact le_trans hle hfuel
  have hjoin := paginate_period_report_join all_rows start_date end_date
    limit hMsorted hlim fuel none hMfuel
  have hnodup := periodRows_nodup all_rows start_date end_date hsorted
  refine ⟨hjoin, ?_, ?_, ?_⟩
  · have hfn : (paginate_period_report all_rows start_date end_date limit
        fuel none).flatten.Nodup := by
      rw [hjoin]; exact hnodup
    exact (List.nodup_flatten.mp hfn).2
  · intro r hr
    rw [hjoin]
    exact List.count_eq_one_of_mem hnodup hr
  · intro c
    by_cases hlen : limit <
        (cursorFiltered (periodRows all_rows start_date end_date) c).length
    · rw [get_period_session_report_more all_rows start_date end_date limit
        c hlim hlen]
      simp only [List.drop_eq_nil_iff]
      constructor
      · intro h; exact absurd h (by simp)
      · intro h; omega
    · push_neg at hlen
      rw [get_period_session_report_last all_rows start_date end_date limit
        c hlen]
      simp only [List.drop_eq_nil_iff]
      constructor
      · intro _; omega
      · intro _; trivial

instance (p q : Int × Nat) : Decidable (keyLt p q) := by
  unfold keyLt; infer_instance

instance (a b : ReportRow) : Decidable (rowAfter a b) := by
  unfold rowAfter; infer_instance

/-- Five report rows sharing one `check_in_time` with distinct ids, in
table order (spec scenario 6). -/
def c2Rows : List ReportRow :=
  [⟨0, 5, none⟩, ⟨0, 4, none⟩, ⟨0, 3, none⟩, ⟨0, 2, none⟩, ⟨0, 1, none⟩]

/-- C2 witness: pagination over five rows with one shared timestamp at
`limit = 2` yields pages of sizes 2, 2, 1 covering all five rows
exactly once. -/
theorem period_report_cursor_pagination_roundtrip_witness :
    (1 ≤ 2) ∧
    ((paginate_period_report c2Rows (-10) 10 2 5 none).flatten =
      periodRows c2Rows (-10) 10) ∧
    List.Pairwise List.Disjoint
      (paginate_period_report c2Rows (-10) 10 2 5 none) ∧
    (paginate_period_report c2Rows (-10) 10 2 5 none).map List.length =
      [2, 2, 1] := by
  have h := period_report_cursor_pagination_roundtrip c2Rows (-10) 10 2 5
    (by decide) (by decide) (by decide)
  exact ⟨by decide, h.1, h.2.1, by decide⟩

/-! ### Token verification (`app/auth/middleware.py` `verify_token`) -/

/-- The claims extracted from a decoded token.  `roles` models
`realm_access.roles` (absent → `[]`); the string-valued claims are
`none` when absent or empty (Python falsiness). -/
structure TokenClaims where
  sub : String
  roles : List String
  organizationID : Option String
  orgSchemaName : Option String
  schemaName : Option String
  schema_name : Option String
deriving DecidableEq, Repr

/-- Exceptions that can escape the `try` body of `verify_token`:
`JWTError` raised by `verify_and_decode`, or an `HTTPException`
deliberately raised inside the body. -/
inductive TokenTryError where
  | jwtError (msg : String)
  | httpExc (code : Nat) (detail : String)
deriving DecidableEq, Repr

/-- The `JWTPayload` the middleware builds (`app/auth/models.py`),
restricted to the fields the claims concern; the permission list is a
pure function of `roles` (`PermissionsManager`) and is omitted. -/
structure VerifiedPayload where
  sub : String
  org_id : String
  tenant_schema : String
  roles : List String
deriving DecidableEq, Repr

/-- The body of `verify_token`'s `try` block.  `decoded` is the result
of `jwt_verifier.verify_and_decode` (`Except.error` = `JWTError`);
`x_organization_id` is the `X-Organization-ID` header (`none` for
absent/empty); `orgSchemaLookup` is the `organizations` table query
`SELECT schema_name WHERE id = org_id`. -/
def verify_token_body (decoded : Except String TokenClaims)
    (x_organization_id : Option String)
    (orgSchemaLookup : String → Option String) :
    Except TokenTryError VerifiedPayload := do
  match decoded with
  | Except.error msg => Except.error (TokenTryError.jwtError msg)
  | Except.ok payload =>
    let roles := payload.roles
    let is_super_admin := roles.contains "SUPER_ADMIN"
    let org_id0 := payload.organizationID.getD ""
    let org_id ←
      if org_id0 = "" ∧ x_organization_id.isSome ∧ is_super_admin then
        pure (x_organization_id.getD "")
      else if org_id0 = "" then
        Except.error (TokenTryError.httpExc 401
          "Invalid token: missing organizationID")
      else pure org_id0
    let schema_claim :=
      (payload.orgSchemaName.orElse fun _ =>
        (payload.schemaName.orElse fun _ => payload.schema_name))
    let tenant_schema ←
      match schema_claim with
      | some t => pure t
      | none =>
        if is_super_admin ∧ x_organization_id.isSome then
          match orgSchemaLookup org_id with
          | some t => pure t
          | none =>
              Except.error (TokenTryError.httpExc 404
                ("Organization not found: " ++ org_id))
        else
          pure (if org_id.startsWith "org_" then org_id
            else "org_" ++ org_id)
    Except.ok
      { sub := payload.sub
        org_id := org_id
        tenant_schema := tenant_schema
        roles := roles }

/-- Source `verify_token` with its exception handlers: a `JWTError` maps to
HTTP 401; any other exception — including the `HTTPException`s raised
inside the `try` body, since `HTTPException` is a subclass of
`Exception` but not of `JWTError` — is caught by the blanket
`except Exception` handler and re-raised as HTTP 500 with detail
`f"Token verification failed: {e}"` (`str` of an `HTTPException` is
`"{code}: {detail}"`). -/
def verify_token (decoded : Except String TokenClaims)
    (x_organization_id : Option String)
    (orgSchemaLookup : String → Option String) :
    Except (Nat × String) VerifiedPayload :=
  match verify_token_body decoded x_organization_id orgSchemaLookup with
  | Except.ok p => Except.ok p
  | Except.error (TokenTryError.jwtError msg) =>
      Except.error (401, "Invalid token: " ++ msg)
  | Except.error (TokenTryError.httpExc code detail) =>
      Except.error (500,
        "Token verification failed: " ++ toString code ++ ": " ++ detail)

/-! ### Cache-sync consumer (`app/messaging/consumer.py`,
`OrganizationEventConsumer`) -/

/-- A cached patient row: the columns of the `patients` table exactly
as the `Patient` model in `app/db/models.py` defines them — a single
`full_name`, and no `first_name` / `last_name` / `careplan_type` /
`careplan_frequency` columns. -/
structure PatientRow where
  full_name : String
  email : Option String
  phone_number : Option String
  date_of_birth : Option Int
  address : Option String
  medical_notes : Option String
  is_active : Bool
  created_at : Int
  updated_at : Int
  deleted_at : Option Int
deriving DecidableEq, Repr

/-- A cached user (caregiver) row: the columns of the `users` table
exactly as the `User` model in `app/db/models.py` defines them — a
single `full_name`, no `first_name` / `last_name`. -/
structure UserRow where
  full_name : String
  email : Option String
  role : Option String
  is_active : Bool
  created_at : Int
  updated_at : Int
  deleted_at : Option Int
deriving DecidableEq, Repr

/-- The SQLAlchemy failure raised when a statement's `values` /
`set_` name columns the mapped model does not have: `CompileError`
with message `Unconsumed column names: ...`, raised when the statement
is executed. -/
inductive SqlAlchemyError where
  | unconsumedColumnNames
deriving DecidableEq, Repr

/-- The data dictionary carried by an organization event.  The
consumer's `_get_value` reads each logical field under snake-case and
camel-case aliases; here each pair of aliases is collapsed into one
optional field (`none` = absent under both names, matching `_get_value`
returning `None`).  Timestamp strings are modelled already parsed. -/
structure OrgEvent where
  schema_name : Option String := none
  organization_id : Option String := none
  patient_id : Option String := none
  user_id : Option String := none
  first_name : Option String := none
  last_name : Option String := none
  email : Option String := none
  phone_number : Option String := none
  date_of_birth : Option Int := none
  address : Option String := none
  medical_notes : Option String := none
  careplan_type : Option String := none
  careplan_frequency : Option String := none
  is_active : Option Bool := none
  created_at : Option Int := none
  updated_at : Option Int := none
  deleted_at : Option Int := none
  changed_at : Option Int := none
  new_status : Option String := none
  role : Option String := none
  old_role : Option String := none
  new_role : Option String := none
deriving DecidableEq, Repr

/-- The tenant's local read cache: `patients` and `users` tables keyed
by external id (UUID strings). -/
@[ext]
structure TenantCache where
  patients : String → Option PatientRow
  users : String → Option UserRow

/-- Source `_schema_from_org`: explicit schema name, else `org_` plus the
organization id with dashes replaced by underscores, else `None`. -/
def schema_from_org (e : OrgEvent) : Option String :=
  match e.schema_name with
  | some s => some s
  | none =>
    match e.organization_id with
    | none => none
    | some org => some ("org_" ++ org.replace "-" "_")

/-- Write one patient row: the keyed SQL `UPDATE`s of the delete and
status handlers end in such a write when a row with the id exists. -/
def writePatient (st : TenantCache) (pid : String) (row : PatientRow) :
    TenantCache :=
  { st with patients := fun k => if k = pid then some row else st.patients k }

/-- Write one user row (keyed `UPDATE`, as for patients). -/
def writeUser (st : TenantCache) (uid : String) (row : UserRow) :
    TenantCache :=
  { st with users := fun k => if k = uid then some row else st.users k }

/-- Source `_upsert_patient`: return early (dropping the event) when the
schema or `patient_id` is missing; otherwise compute the timestamp /
active-flag fallbacks and execute
`insert(Patient).values(first_name=..., last_name=...,
careplan_type=..., careplan_frequency=..., ...)`.  The `Patient` model
(`app/db/models.py`) has a single `full_name` column and none of
`first_name`, `last_name`, `careplan_type`, `careplan_frequency`, so
SQLAlchemy rejects the statement with `CompileError("Unconsumed column
names: ...")` on every call that reaches the execute: the exception
propagates out of the handler before any commit and no row is ever
written.  (`now` stands for the `datetime.utcnow()` fallbacks the
source computes before the failing execute; they are never
observable.) -/
def upsert_patient (now : Int) (e : OrgEvent) (st : TenantCache) :
    Except SqlAlchemyError TenantCache :=
  match schema_from_org e with
  | none => Except.ok st
  | some _ =>
    match e.patient_id with
    | none => Except.ok st
    | some _ =>
      let created_at := e.created_at.getD now
      let updated_at := e.updated_at.getD created_at
      let is_active := e.is_active.getD true
      let _unused := (updated_at, is_active)
      Except.error SqlAlchemyError.unconsumedColumnNames

/-- Source `_mark_patient_deleted`: keyed `UPDATE` setting the soft-delete
marker, inactive flag and `updated_at` (a no-op when no row has the
id). -/
def mark_patient_deleted (now : Int) (e : OrgEvent) (st : TenantCache) :
    TenantCache :=
  match schema_from_org e with
  | none => st
  | some _ =>
    match e.patient_id with
    | none => st
    | some pid =>
      let deleted_at := e.deleted_at.getD now
      match st.patients pid with
      | none => st
      | some old =>
          writePatient st pid
            { old with
              deleted_at := some deleted_at
              is_active := false
              updated_at := deleted_at }

/-- Source `_update_patient_status`: keyed `UPDATE` of the active flag
(`str(new_status).lower() == "active"`; `str(None)` is `"None"`) and
`updated_at`. -/
def update_patient_status (now : Int) (e : OrgEvent) (st : TenantCache) :
    TenantCache :=
  match schema_from_org e with
  | none => st
  | some _ =>
    match e.patient_id with
    | none => st
    | some pid =>
      let changed_at := e.changed_at.getD now
      let is_active := (e.new_status.getD "None").toLower == "active"
      match st.patients pid with
      | none => st
      | some old =>
          writePatient st pid
            { old with is_active := is_active, updated_at := changed_at }

/-- Source `_upsert_caregiver`: return early when the schema or
`user_id` is missing, or when the event carries a role other than
`CAREGIVER`; otherwise execute `insert(User).values(first_name=...,
last_name=..., ...)`.  The `User` model (`app/db/models.py`) has a
single `full_name` column and no `first_name` / `last_name`, so the
statement raises `CompileError("Unconsumed column names: ...")` on
every call that reaches the execute and no row is ever written. -/
def upsert_caregiver (now : Int) (e : OrgEvent) (st : TenantCache) :
    Except SqlAlchemyError TenantCache :=
  match schema_from_org e with
  | none => Except.ok st
  | some _ =>
    match e.user_id with
    | none => Except.ok st
    | some _ =>
      if (e.role.map (fun r => r.toUpper != "CAREGIVER")).getD false then
        Except.ok st
      else
        let created_at := e.created_at.getD now
        let updated_at := e.updated_at.getD created_at
        let is_active := e.is_active.getD true
        let _unused := (updated_at, is_active)
        Except.error SqlAlchemyError.unconsumedColumnNames

/-- Source `_mark_caregiver_deleted`. -/
def mark_caregiver_deleted (now : Int) (e : OrgEvent) (st : TenantCache) :
    TenantCache :=
  match schema_from_org e with
  | none => st
  | some _ =>
    match e.user_id with
    | none => st
    | some uid =>
      if (e.role.map (fun r => r.toUpper != "CAREGIVER")).getD false then st
      else
        let deleted_at := e.deleted_at.getD now
        match st.users uid with
        | none => st
        | some old =>
            writeUser st uid
              { old with
                deleted_at := some deleted_at
                is_active := false
                updated_at := deleted_at }

/-- Source `_update_caregiver_status`. -/
def update_caregiver_status (now : Int) (e : OrgEvent) (st : TenantCache) :
    TenantCache :=
  match schema_from_org e with
  | none => st
  | some _ =>
    match e.user_id with
    | none => st
    | some uid =>
      if (e.role.map (fun r => r.toUpper != "CAREGIVER")).getD false then st
      else
        let changed_at := e.changed_at.getD now
        let is_active := (e.new_status.getD "None").toLower == "active"
        match st.users uid with
        | none => st
        | some old =>
            writeUser st uid
              { old with is_active := is_active, updated_at := changed_at }

/-- Source `_update_caregiver_role`: a transition out of `CAREGIVER` marks
the row inactive (keeping it); a transition into `CAREGIVER` marks it
active; anything else writes nothing. -/
def update_caregiver_role (now : Int) (e : OrgEvent) (st : TenantCache) :
    TenantCache :=
  match schema_from_org e with
  | none => st
  | some _ =>
    match e.user_id with
    | none => st
    | some uid =>
      let changed_at := e.changed_at.getD now
      let oldIsCaregiver :=
        (e.old_role.map (fun r => r.toUpper == "CAREGIVER")).getD false
      let newIsCaregiver :=
        (e.new_role.map (fun r => r.toUpper == "CAREGIVER")).getD false
      if oldIsCaregiver && !newIsCaregiver then
        match st.users uid with
        | none => st
        | some old =>
            writeUser st uid
              { old with
                role := e.new_role
                is_active := false
                updated_at := changed_at }
      else if newIsCaregiver then
        match st.users uid with
        | none => st
        | some old =>
            writeUser st uid
              { old with
                role := e.new_role
                is_active := true
                updated_at := changed_at }
      else st

/-- Source `_process_event`: dispatch on the event type; unknown types are
logged and dropped.  An exception escaping a handler — the upserts'
`CompileError` — propagates to the caller. -/
def process_event (now : Int) (event_type : String) (e : OrgEvent)
    (st : TenantCache) : Except SqlAlchemyError TenantCache :=
  if event_type = "patient.created" then upsert_patient now e st
  else if event_type = "patient.deleted" then
    Except.ok (mark_patient_deleted now e st)
  else if event_type = "patient.status_changed" then
    Except.ok (update_patient_status now e st)
  else if event_type = "user.created" then upsert_caregiver now e st
  else if event_type = "user.deleted" then
    Except.ok (mark_caregiver_deleted now e st)
  else if event_type = "user.status_changed" then
    Except.ok (update_caregiver_status now e st)
  else if event_type = "user.role_changed" then
    Except.ok (update_caregiver_role now e st)
  else Except.ok st

/-- What becomes of a delivered message: `basic_ack` or
`basic_nack(requeue=True)`. -/
inductive DeliveryOutcome where
  | acked
  | requeued
deriving DecidableEq, Repr

/-- An incoming message body: either `json.loads` raises (not valid
JSON), or it parses to an optional event-type field (collapsing the
`event_type` / `event` keys) and a data dictionary. -/
inductive MessageBody where
  | malformed
  | parsed (event_type : Option String) (data : OrgEvent)

/-- Source `OrganizationEventConsumer.callback`: on any exception — a
JSON parse failure, or one raised inside `_process_event` such as the
upserts' `CompileError` — the message is logged and
`basic_nack(delivery_tag, requeue=True)`-ed, with no state change
(the failing statement was never committed); otherwise
`_process_event`'s result stands (events with missing schema or ids
are dropped inside the handlers without error) and the message is
acknowledged.  `routing_key` is `method.routing_key`. -/
def callback (now : Int) (routing_key : Option String)
    (body : MessageBody) (st : TenantCache) :
    TenantCache × DeliveryOutcome :=
  match body with
  | MessageBody.malformed => (st, DeliveryOutcome.requeued)
  | MessageBody.parsed et data =>
    let event_type := (routing_key.orElse fun _ => et).getD ""
    match process_event now event_type data st with
    | Except.ok st2 => (st2, DeliveryOutcome.acked)
    | Except.error _ => (st, DeliveryOutcome.requeued)

/-! ### Claim theorems -/

/-- An in-progress session whose check-in is `now - 2 hours` exactly
(and helper fixtures reused by several theorems below). -/
def c8Session : CareSession :=
  { id := 1, session_id := "s-1", patient_id := 1, caregiver_id := 2
    check_in_time := 0, check_out_time := none, status := "in_progress"
    caregiver_notes := none, created_at := 0, updated_at := 0
    deleted_at := none }

/-- C8 counterexample: a session idle for exactly 2 hours is NOT
completed by `auto_complete_if_needed` — the source tests
`check_in_time >= now - 2h` and returns `False` on equality — whereas
the claim says a session "already idle for exactly 2 hours or more is
completed". -/
theorem auto_complete_exactly_two_hours_unchanged :
    auto_complete_if_needed 7200 c8Session = (c8Session, false) ∧
    c8Session.status = "in_progress" ∧
    7200 - c8Session.check_in_time = AUTO_COMPLETE_HOURS * 3600 := by
  decide

/-- C8 (amended): `auto_complete_if_needed` completes an in-progress
session exactly when `check_in_time < now - 2 hours`, i.e. when it has
been idle STRICTLY more than 2 hours; at exactly 2 hours or less (or
when not in progress) the session is returned unchanged.  When it
triggers, the status becomes `completed`, `check_out_time := now`, and
the caregiver note gains the `[AUTO-COMPLETED]` line. -/
theorem auto_complete_iff_strictly_stale (now : Int)
    (session : CareSession) :
    ((auto_complete_if_needed now session).2 = true ↔
      session.status = "in_progress" ∧
        session.check_in_time < now - AUTO_COMPLETE_HOURS * 3600) ∧
    ((auto_complete_if_needed now session).2 = false →
      (auto_complete_if_needed now session).1 = session) ∧
    ((auto_complete_if_needed now session).2 = true →
      (auto_complete_if_needed now session).1.status = "completed" ∧
      (auto_complete_if_needed now session).1.check_out_time = some now ∧
      (auto_complete_if_needed now session).1.caregiver_notes = some
        (((session.caregiver_notes.getD "") ++ "\n" ++
          autoCompleteNoteText).trim)) := by
  unfold auto_complete_if_needed
  by_cases h1 : session.status = "in_progress"
  · by_cases h2 : session.check_in_time ≥
        now - AUTO_COMPLETE_HOURS * 3600
    · simp [h1, h2]
    · simp [h1, h2]
      omega
  · simp [h1]

/-- C8 witness: at 2 hours and 1 second of idleness the session is
auto-completed with `check_out_time = now` and the `[AUTO-COMPLETED]`
note. -/
theorem auto_complete_iff_strictly_stale_witness :
    (auto_complete_if_needed 7201 c8Session).2 = true ∧
    (auto_complete_if_needed 7201 c8Session).1.status = "completed" ∧
    (auto_complete_if_needed 7201 c8Session).1.check_out_time =
      some 7201 ∧
    (auto_complete_if_needed 7201 c8Session).1.caregiver_notes = some
      (((c8Session.caregiver_notes.getD "") ++ "\n" ++
        autoCompleteNoteText).trim) := by
  have h := auto_complete_iff_strictly_stale 7201 c8Session
  have ht : (auto_complete_if_needed 7201 c8Session).2 = true :=
    h.1.mpr (by constructor <;> decide)
  exact ⟨ht, h.2.2 ht⟩

/-- A session 3 hours stale at read time (claim C1, spec scenario 3). -/
def c1Session : CareSession :=
  { id := 1, session_id := "sid-1", patient_id := 7, caregiver_id := 9
    check_in_time := 0, check_out_time := none, status := "in_progress"
    caregiver_notes := none, created_at := 0, updated_at := 0
    deleted_at := none }

/-- C1: `get_session` does NOT apply the auto-completion policy.  At a
stored in-progress session whose check-in is 3 hours old, the read at
`now = 10800` returns the row unchanged — status still `in_progress`,
no check-out, no note — even though `auto_complete_if_needed` would
have triggered at that instant (`auto_complete_if_needed` has no
caller anywhere in the code base). -/
theorem get_session_does_not_auto_complete :
    get_session [c1Session] 1 = Except.ok c1Session ∧
    c1Session.status = "in_progress" ∧
    c1Session.check_out_time = none ∧
    c1Session.caregiver_notes = none ∧
    (auto_complete_if_needed 10800 c1Session).2 = true ∧
    (auto_complete_if_needed 10800 c1Session).1.status = "completed" := by
  refine ⟨rfl, rfl, rfl, rfl, ?_, ?_⟩ <;> decide

/-- C3 counterexample: starting from a freshly created in-progress
session (check-in at time 0), an admin `update_session` moving
`check_in_time` to 200 succeeds (no `check_out_time` is set, so
`validate_session_times` passes), and a subsequent `complete_session`
at `now = 100` also succeeds — producing a session with
`check_out_time = 100 < 200 = check_in_time`, violating the claimed
invariant after a mutation path. -/
theorem complete_session_can_violate_session_times :
    update_session 50 c8Session (some 200) none none none =
      Except.ok { c8Session with check_in_time := 200, updated_at := 50 } ∧
    complete_session 100
        { c8Session with check_in_time := 200, updated_at := 50 }
        "visit done" 2 =
      Except.ok
        { c8Session with
            check_in_time := 200, check_out_time := some 100
            caregiver_notes := some "visit done", status := "completed"
            updated_at := 100 } ∧
    sessionTimesOk
      { c8Session with
          check_in_time := 200, check_out_time := some 100
          caregiver_notes := some "visit done", status := "completed"
          updated_at := 100 } = false := by
  refine ⟨rfl, rfl, rfl⟩

theorem validate_session_times_ok (t : CareSession)
    (h : validate_session_times t = Except.ok ()) :
    sessionTimesOk t = true := by
  unfold validate_session_times at h
  unfold sessionTimesOk
  cases hco : t.check_out_time with
  | none => rfl
  | some out =>
    rw [hco] at h
    by_cases hle : out ≤ t.check_in_time
    · simp [hle] at h
    · simp
      omega

theorem sessionTimesOk_updated_at (t : CareSession) (n : Int) :
    sessionTimesOk { t with updated_at := n } = sessionTimesOk t := rfl

/-- C3 (amended): the `check_out > check_in` invariant as each
mutation path actually maintains it.  Creation never sets a check-out
(the invariant holds vacuously); a successful admin `update_session`
guarantees it (`validate_session_times` gates the write); a successful
`complete_session` sets `check_out_time := now` WITHOUT any time
validation, so it guarantees the invariant only when the completion
instant lies strictly after the session's `check_in_time`. -/
theorem session_times_invariant_by_mutation_path :
    (∀ (db : List CareSession) (tags : List NFCTag) (tag_id : String)
        (caregiver_id : Nat) (provided : Option String) (new_id : Nat)
        (gsid : String) (now : Int) (s : CareSession),
      create_session db tags tag_id caregiver_id provided new_id gsid
          now = Except.ok s →
        s.check_out_time = none ∧ sessionTimesOk s = true) ∧
    (∀ (now : Int) (session : CareSession) (ci co : Option Int)
        (notes st : Option String) (s : CareSession),
      update_session now session ci co notes st = Except.ok s →
        sessionTimesOk s = true) ∧
    (∀ (now : Int) (session : CareSession) (notes : String)
        (caregiver_id : Nat) (s : CareSession),
      complete_session now session notes caregiver_id = Except.ok s →
        s.check_out_time = some now ∧
        s.check_in_time = session.check_in_time ∧
        (session.check_in_time < now → sessionTimesOk s = true)) := by
  refine ⟨?_, ?_, ?_⟩
  · intro db tags tag_id caregiver_id provided new_id gsid now s h
    unfold create_session at h
    split at h
    · exact absurd h (by simp)
    · split at h
      · exact absurd h (by simp)
      · rw [Except.ok.injEq] at h
        subst h
        exact ⟨rfl, rfl⟩
  · intro now session ci co notes st s h
    unfold update_session at h
    dsimp only at h
    repeat' split at h
    all_goals
      first
        | (rw [Except.ok.injEq] at h
           subst h
           exact validate_session_times_ok _ (by assumption))
        | simp at h
  · intro now session notes caregiver_id s h
    unfold complete_session at h
    split at h
    · exact absurd h (by simp)
    · split at h
      · exact absurd h (by simp)
      · rw [Except.ok.injEq] at h
        subst h
        refine ⟨rfl, rfl, ?_⟩
        intro hlt
        simp [sessionTimesOk]
        exact hlt

/-- C3 witness: a normally ordered completion (check-in at 0,
completion at 100) satisfies the invariant, via
`session_times_invariant_by_mutation_path`. -/
theorem session_times_invariant_by_mutation_path_witness :
    sessionTimesOk
      { c8Session with
          check_out_time := some 100, caregiver_notes := some "n"
          status := "completed", updated_at := 100 } = true := by
  have h := session_times_invariant_by_mutation_path
  exact (h.2.2 100 c8Session "n" 2
    { c8Session with
        check_out_time := some 100, caregiver_notes := some "n"
        status := "completed", updated_at := 100 } rfl).2.2 (by decide)

/-- A "human-readable sequence code": the prefix `CS-` followed by a
non-empty run of digits (the spec's `CS-0001` form). -/
def isSequenceCode (s : String) : Bool :=
  match s.data with
  | 'C' :: 'S' :: '-' :: rest => !rest.isEmpty && rest.all Char.isDigit
  | _ => false

/-- An NFC tag fixture bound to patient 7. -/
def c5Tag : NFCTag := { tag_id := "tag-1", patient_id := 7, status := "active" }

/-- A UUID-shaped string, standing for one value of the
`str(uuid4())` column default. -/
def uuidExample : String := "550e8400-e29b-41d4-a716-446655440000"

/-- C5 counterexample: a session created without a caller-supplied
public id gets `session_id = str(uuid4())` — a UUID string, not a
`CS-0001`-style sequence code; no sequence counter exists anywhere in
the code base (the string `CS-` appears nowhere). -/
theorem create_session_id_is_uuid_not_sequence_code :
    create_session [] [c5Tag] "tag-1" 9 none 1 uuidExample 0 =
      Except.ok
        { id := 1, session_id := uuidExample, patient_id := 7
          caregiver_id := 9, check_in_time := 0, check_out_time := none
          status := "in_progress", caregiver_notes := none
          created_at := 0, updated_at := 0, deleted_at := none } ∧
    isSequenceCode uuidExample = false := by
  refine ⟨rfl, ?_⟩
  decide

/-- C5 (amended): `create_session` assigns `session_id` as the
caller-provided value when one is given and the generated UUID-string
column default otherwise (uniqueness comes from the `unique=True`
column constraint, not from any counter); the new session checks in at
`now` with status `in_progress`. -/
theorem create_session_session_id_assignment
    (db : List CareSession) (tags : List NFCTag) (tag_id : String)
    (caregiver_id : Nat) (provided : Option String) (new_id : Nat)
    (gsid : String) (now : Int) (s : CareSession) :
    create_session db tags tag_id caregiver_id provided new_id gsid now =
        Except.ok s →
      s.session_id = provided.getD gsid ∧ s.status = "in_progress" ∧
        s.check_in_time = now ∧ s.check_out_time = none := by
  intro h
  unfold create_session at h
  split at h
  · exact absurd h (by simp)
  · split at h
    · exact absurd h (by simp)
    · rw [Except.ok.injEq] at h
      subst h
      exact ⟨rfl, rfl, rfl, rfl⟩

/-- C5 witness: with a caller-provided id the created session carries
it; via `create_session_session_id_assignment` at a concrete input. -/
theorem create_session_session_id_assignment_witness :
    (Option.some "custom-id").getD uuidExample = "custom-id" ∧
    (create_session [] [c5Tag] "tag-1" 9 (some "custom-id") 1 uuidExample
        0).map (fun s => s.session_id) = Except.ok "custom-id" := by
  have h := create_session_session_id_assignment [] [c5Tag] "tag-1" 9
    (some "custom-id") 1 uuidExample 0
    { id := 1, session_id := "custom-id", patient_id := 7
      caregiver_id := 9, check_in_time := 0, check_out_time := none
      status := "in_progress", caregiver_notes := none
      created_at := 0, updated_at := 0, deleted_at := none } rfl
  exact ⟨h.1.symm ▸ rfl, rfl⟩

/-- C4: `compute_metrics` over ratings `[1, 2, 3, 3]`.  The average is
2.25 and the distribution is 50% / 25% / 25% for ratings 3 / 2 / 1 as
claimed, but the satisfaction index is 45.0, not 75.0: the code
divides the average by 5, not by the maximum rating 3 (the repository's
own test `test_compute_metrics_mixed` asserts 75.0 `= (2.25/3) * 100`
and fails against this code).  The last conjunct shows 75.0 is exactly
what the `(average / max_rating) * 100` formula with `max_rating = 3`
— the router helper `calculate_satisfaction_index` — yields. -/
theorem compute_metrics_1233_satisfaction_index_45 :
    (compute_metrics [⟨1⟩, ⟨2⟩, ⟨3⟩, ⟨3⟩]).average_rating = 9 / 4 ∧
    (compute_metrics [⟨1⟩, ⟨2⟩, ⟨3⟩, ⟨3⟩]).satisfaction_index = 45 ∧
    (compute_metrics [⟨1⟩, ⟨2⟩, ⟨3⟩, ⟨3⟩]).satisfaction_index < 75 ∧
    (compute_metrics [⟨1⟩, ⟨2⟩, ⟨3⟩, ⟨3⟩]).dist_3_star = 50 ∧
    (compute_metrics [⟨1⟩, ⟨2⟩, ⟨3⟩, ⟨3⟩]).dist_2_star = 25 ∧
    (compute_metrics [⟨1⟩, ⟨2⟩, ⟨3⟩, ⟨3⟩]).dist_1_star = 25 ∧
    calculate_satisfaction_index (9 / 4) = 75 := by
  norm_num [compute_metrics, calculate_satisfaction_index, pyRound2,
    round_eq, List.count_cons]

theorem pyRound2_err (x : ℚ) : |pyRound2 x - x| ≤ 1 / 200 := by
  unfold pyRound2
  have h : |x * 100 - round (x * 100)| ≤ 1 / 2 := abs_sub_round (x * 100)
  have hrw : ((round (x * 100) : ℤ) : ℚ) / 100 - x =
      -(x * 100 - ((round (x * 100) : ℤ) : ℚ)) / 100 := by ring
  rw [hrw, abs_div, abs_neg]
  rw [abs_of_pos (by norm_num : (0 : ℚ) < 100)]
  rw [div_le_div_iff₀ (by norm_num) (by norm_num)]
  nlinarith [h]

theorem one_le_rawAverage (feedbacks : List Feedback)
    (hne : feedbacks ≠ [])
    (hratings : ∀ f ∈ feedbacks, 1 ≤ f.rating) :
    1 ≤ rawAverage feedbacks := by
  unfold rawAverage
  have hlen : 0 < feedbacks.length := List.length_pos.mpr hne
  have hsum : feedbacks.length ≤ (feedbacks.map (fun f => f.rating)).sum := by
    have := List.length_le_sum_of_one_le (feedbacks.map (fun f => f.rating))
      (fun x hx => by
        rcases List.mem_map.mp hx with ⟨f, hf, rfl⟩
        exact hratings f hf)
    simpa using this
  rw [le_div_iff₀ (by exact_mod_cast hlen)]
  rw [one_mul]
  exact_mod_cast hsum

/-- C10: the two satisfaction-index computations disagree on every
non-empty feedback collection.  The router helper
`calculate_satisfaction_index` normalizes the average by 3
(`round((average_rating / 3.0) * 100, 2)`) while `compute_metrics`
normalizes by 5 (`round((avg_rating / 5) * 100, 2)`); for any
collection of ratings that are each at least 1 the gap `40·a/3` of the
unrounded values dwarfs the rounding slack, so the returned values are
always different — analytics endpoints using the helper and list
endpoints using `compute_metrics` report inconsistent indices for the
same data. -/
theorem satisfaction_index_computations_disagree
    (feedbacks : List Feedback) (hne : feedbacks ≠ [])
    (hratings : ∀ f ∈ feedbacks, 1 ≤ f.rating) :
    calculate_satisfaction_index (rawAverage feedbacks) ≠
      (compute_metrics feedbacks).satisfaction_index := by
  have ha : 1 ≤ rawAverage feedbacks :=
    one_le_rawAverage feedbacks hne hratings
  have hmetrics : (compute_metrics feedbacks).satisfaction_index =
      pyRound2 (rawAverage feedbacks / 5 * 100) := by
    unfold compute_metrics rawAverage
    rw [if_neg (by simpa [List.isEmpty_iff] using hne)]
  rw [hmetrics]
  unfold calculate_satisfaction_index
  intro heq
  set a := rawAverage feedbacks with hadef
  have h1 := pyRound2_err (a / 3 * 100)
  have h2 := pyRound2_err (a / 5 * 100)
  rw [heq] at h1
  rw [abs_le] at h1 h2
  have hgap : a / 3 * 100 - a / 5 * 100 = 40 * a / 3 := by ring
  have : 40 * a / 3 ≤ 1 / 100 := by linarith [h1.1, h1.2, h2.1, h2.2]
  linarith

/-- C10 witness: a single rating of 1 gives index 33.33 from the
router helper and 20.0 from `compute_metrics`; via
`satisfaction_index_computations_disagree` at that input. -/
theorem satisfaction_index_computations_disagree_witness :
    (([⟨1⟩] : List Feedback) ≠ []) ∧
    (∀ f ∈ ([⟨1⟩] : List Feedback), 1 ≤ f.rating) ∧
    calculate_satisfaction_index (rawAverage [⟨1⟩]) ≠
      (compute_metrics [⟨1⟩]).satisfaction_index := by
  refine ⟨by simp, by simp, ?_⟩
  exact satisfaction_index_computations_disagree [⟨1⟩] (by simp)
    (by simp)

/-- A verified token carrying no tenant/schema claim and no
organization id, for a non-elevated caller (no `SUPER_ADMIN` role),
with no `X-Organization-ID` header. -/
def c6Claims : TokenClaims :=
  { sub := "user-1", roles := ["CAREGIVER"], organizationID := none
    orgSchemaName := none, schemaName := none, schema_name := none }

/-- C6: for that request the middleware does construct the 401
`HTTPException("Invalid token: missing organizationID")`, but raising
it inside the `try` block lands it in the blanket `except Exception`
handler (FastAPI's `HTTPException` is not a `JWTError`), which
re-raises it as HTTP 500 `"Token verification failed: ..."` — the
missing-tenant failure therefore surfaces as a server error, not as an
unauthorized rejection. -/
theorem verify_token_missing_tenant_yields_500 :
    verify_token (Except.ok c6Claims) none (fun _ => none) =
      Except.error (500,
        "Token verification failed: 401: Invalid token: missing organizationID")
    := by
  rfl

/-- A fresh, empty tenant cache. -/
def emptyCache : TenantCache :=
  { patients := fun _ => none, users := fun _ => none }

theorem process_event_missing_ids (now : Int) (event_type : String)
    (e : OrgEvent) (st : TenantCache) (hp : e.patient_id = none)
    (hu : e.user_id = none) :
    process_event now event_type e st = Except.ok st := by
  unfold process_event upsert_patient mark_patient_deleted
    update_patient_status upsert_caregiver mark_caregiver_deleted
    update_caregiver_status update_caregiver_role
  cases hs : schema_from_org e <;> simp [hp, hu, hs]

/-- C7 counterexample: a message whose body is not valid JSON is NOT
acknowledged-and-dropped — `json.loads` raises, the blanket `except`
logs the error and calls `basic_nack(delivery_tag, requeue=True)`, so
the message is returned to the queue for redelivery. -/
theorem callback_unparseable_requeued :
    callback 0 (some "patient.created") MessageBody.malformed emptyCache =
      (emptyCache, DeliveryOutcome.requeued) := rfl

/-- C7 (amended): the consumer process survives both failure shapes,
but handles them differently.  An unparseable message is logged and
negatively acknowledged with `requeue=True` — retried via redelivery,
not dropped.  A parseable event missing its entity identifier is
logged inside the handler, leaves the cache untouched, and IS
acknowledged and dropped. -/
theorem callback_malformed_vs_missing_id (now : Int)
    (routing_key : Option String) (et : Option String) (e : OrgEvent)
    (st : TenantCache) (hp : e.patient_id = none)
    (hu : e.user_id = none) :
    callback now routing_key MessageBody.malformed st =
      (st, DeliveryOutcome.requeued) ∧
    callback now routing_key (MessageBody.parsed et e) st =
      (st, DeliveryOutcome.acked) := by
  constructor
  · rfl
  · unfold callback
    dsimp only
    rw [process_event_missing_ids now _ e st hp hu]

/-- An event with a schema but no entity identifiers. -/
def c7Event : OrgEvent := { schema_name := some "org_acme" }

/-- C7 witness: concrete malformed and missing-identifier deliveries,
via `callback_malformed_vs_missing_id`. -/
theorem callback_malformed_vs_missing_id_witness :
    c7Event.patient_id = none ∧ c7Event.user_id = none ∧
    callback 0 (some "patient.created") MessageBody.malformed emptyCache =
      (emptyCache, DeliveryOutcome.requeued) ∧
    callback 0 (some "patient.created")
        (MessageBody.parsed none c7Event) emptyCache =
      (emptyCache, DeliveryOutcome.acked) := by
  have h := callback_malformed_vs_missing_id 0 (some "patient.created")
    none c7Event emptyCache rfl rfl
  exact ⟨rfl, rfl, h.1, h.2⟩

/-- A fully well-formed `patient.created` event: schema, `patient_id`,
name and timestamps all present. -/
def c9PatientEvent : OrgEvent :=
  { schema_name := some "org_acme", patient_id := some "p1"
    first_name := some "Ann", created_at := some 5, updated_at := some 6 }

/-- A fully well-formed `user.created` event carrying no role field:
the gate `if role and role.upper() != "CAREGIVER"` is skipped when the
role is absent, so the handler proceeds to the insert. -/
def c9UserEvent : OrgEvent :=
  { schema_name := some "org_acme", user_id := some "u1"
    first_name := some "Bob", created_at := some 5
    updated_at := some 6 }

/-- C9: the consumer's patient/user upsert writes never happen, so no
cache-sync create event is ever applied — idempotently or otherwise.
`_upsert_patient` / `_upsert_caregiver` insert columns (`first_name`,
`last_name`, `careplan_type`, `careplan_frequency`) that the `Patient`
/ `User` models of `app/db/models.py` do not define (they have a
single `full_name`), so SQLAlchemy raises `CompileError("Unconsumed
column names: ...")` on every execute: even a fully well-formed,
fully-timestamped `patient.created` / `user.created` event errors, is
nacked with `requeue=True` (redelivered forever), and writes no row —
the cache still has no entry for the event's id after delivery. -/
theorem cache_sync_upserts_always_raise :
    process_event 10 "patient.created" c9PatientEvent emptyCache =
      Except.error SqlAlchemyError.unconsumedColumnNames ∧
    callback 10 (some "patient.created")
        (MessageBody.parsed none c9PatientEvent) emptyCache =
      (emptyCache, DeliveryOutcome.requeued) ∧
    emptyCache.patients "p1" = none ∧
    process_event 10 "user.created" c9UserEvent emptyCache =
      Except.error SqlAlchemyError.unconsumedColumnNames ∧
    callback 10 (some "user.created")
        (MessageBody.parsed none c9UserEvent) emptyCache =
      (emptyCache, DeliveryOutcome.requeued) ∧
    emptyCache.users "u1" = none := by
  refine ⟨rfl, rfl, rfl, rfl, rfl, rfl⟩
